import Mathlib

/-!
Gaze signal conditioning pipeline

A shallow embedding of the gaze pipeline of the browser extension:

* `src/vex-tracker.js`, the `setGazeListener` callback (the Coordinate Normalizer,
  lines 51-73);
* `src/tracker.js`: `sizeOverlay`, `updatePanel` (the Rate Meter), `applyGazeFromPage`
  (Remapper, Exponential Smoother, Deviation Calculator) and the `onMessage` listener.

Modelling conventions.

* JavaScript numbers that hold measurements (gaze coordinates, bounding-rectangle sizes,
  timestamps, the smoothed point) are rationals: all arithmetic is exact.  A division is only
  meaningful for a non-zero divisor (JavaScript would produce `Infinity`/`NaN`), so every
  statement that depends on the value of a quotient assumes its divisor is non-zero.
* DOM attributes that are integers (`canvas.width`, `clientWidth`, `innerWidth`) are naturals.
* Module-level `let` variables become fields of `State`; values read from the environment
  inside a function (`getBoundingClientRect()`, `performance.now()`, `clientWidth`) become
  arguments.
* `drawMarker` only paints canvas pixels and touches none of the variables below; it is not
  modelled.
-/

namespace GazeTracker

/-! ## JavaScript primitives -/

/-- JavaScript `Math.round`: the nearest integer, ties going toward positive infinity. -/
def Math.round (q : ℚ) : ℤ := ⌊q + 1 / 2⌋

/-- JavaScript `a || b` on a non-negative integer `a`: `b` when `a` is `0`, else `a`. -/
def orDefault (a b : ℕ) : ℕ := if a = 0 then b else a

/-! ## vex-tracker.js: the gaze listener (Coordinate Normalizer) -/

/-- The prediction object handed to the gaze listener (`data.x`, `data.y`). -/
structure GazeData where
  x : ℚ
  y : ℚ
deriving DecidableEq, Repr

/-- The object passed to `chrome.runtime.sendMessage`. -/
structure GazeMessage where
  type : String
  normalizedX : ℚ
  normalizedY : ℚ
  timestamp : ℚ
deriving DecidableEq, Repr

/-- Position of the on-page gaze dot (`gazeDot.style.left/top`, in px); `none` until set. -/
structure Page where
  gazeDotLeft : Option ℚ
  gazeDotTop : Option ℚ
deriving DecidableEq, Repr

/-- The helper `updateGazeDot(x, y)` (vex-tracker.js 37-40). -/
def updateGazeDot (_pg : Page) (x y : ℚ) : Page :=
  { gazeDotLeft := some x, gazeDotTop := some y }

/-- The callback given to `webgazer.setGazeListener` (vex-tracker.js 51-73).
`data` is `none` for a null prediction; `innerWidth`, `innerHeight` are `window.innerWidth`
and `window.innerHeight`; `now` is `performance.now()`.  Returns the page and the message
sent, if any. -/
def gazeListener (pg : Page) (data : Option GazeData) (innerWidth innerHeight : ℕ) (now : ℚ) :
    Page × Option GazeMessage :=
  match data with
  | none => (pg, none)
  | some d =>
    let x := d.x
    let y := d.y
    let pg1 := updateGazeDot pg x y
    let w := orDefault innerWidth 1
    let h := orDefault innerHeight 1
    let nx := x / (w : ℚ)
    let ny := y / (h : ℚ)
    (pg1, some { type := "gaze-update", normalizedX := nx, normalizedY := ny, timestamp := now })

/-! ## tracker.js: module state -/

/-- A point in canvas (processing) coordinates. -/
structure Point where
  x : ℚ
  y : ℚ
deriving DecidableEq, Repr

/-- The module-level variables of tracker.js together with the DOM values it writes.
`overlayWidth`/`overlayHeight` are `overlay.width`/`overlay.height`; the `...El` fields are
the numbers last written to the panel elements (`none` until written); for `dxEl`/`dyEl` the
Boolean records whether the `+` sign is printed. -/
structure State where
  overlayWidth : ℕ
  overlayHeight : ℕ
  PROC_W : ℚ
  PROC_H : ℚ
  smoothed : Option Point
  lastTime : ℚ
  frames : ℕ
  fps : ℤ
  cxEl : Option ℤ
  cyEl : Option ℤ
  dxEl : Option (Bool × ℤ)
  dyEl : Option (Bool × ℤ)
  scEl : Option ℤ
  fpsEl : Option ℤ
deriving DecidableEq, Repr

/-- The smoothing weight, `EMA_ALPHA = 0.2` (tracker.js 27). -/
def EMA_ALPHA : ℚ := 2 / 10

/-- Module state right after the script is loaded at time `t0`, for a canvas whose
attributes are `overlayWidth` x `overlayHeight` (tracker.js 15-24). -/
def init (overlayWidth overlayHeight : ℕ) (t0 : ℚ) : State :=
  { overlayWidth := overlayWidth, overlayHeight := overlayHeight,
    PROC_W := 480, PROC_H := 270,
    smoothed := none,
    lastTime := t0, frames := 0, fps := 0,
    cxEl := none, cyEl := none, dxEl := none, dyEl := none, scEl := none, fpsEl := none }

/-- The layout helper `sizeOverlay()` (tracker.js 31-41); `clientWidth`/`clientHeight` are those of the
overlay's parent element. -/
def sizeOverlay (s : State) (clientWidth clientHeight : ℕ) : State :=
  let w := orDefault clientWidth 480
  let h := orDefault clientHeight 270
  { s with overlayWidth := w, overlayHeight := h, PROC_W := (w : ℚ), PROC_H := (h : ℚ) }

/-- The function `updatePanel(center, dx, dy, quality)` (tracker.js 65-82); `now` is the value of
`performance.now()` read on line 75. -/
def updatePanel (s : State) (center : Option Point) (dx dy : ℚ) (quality : Option ℚ)
    (now : ℚ) : State :=
  match center with
  | none => s
  | some c =>
    let s1 : State :=
      { s with
        cxEl := some (Math.round c.x),
        cyEl := some (Math.round c.y),
        dxEl := some (decide (0 ≤ dx), Math.round dx),
        dyEl := some (decide (0 ≤ dy), Math.round dy),
        scEl := some (match quality with
                      | some q => Math.round q
                      | none => 0) }
    let frames := s1.frames + 1
    if 500 < now - s1.lastTime then
      let fps := Math.round (((frames : ℚ) * 1000) / (now - s1.lastTime))
      { s1 with fps := fps, fpsEl := some fps, frames := 0, lastTime := now }
    else
      { s1 with frames := frames }

/-- The clamped remapped point `rawCenter` of `applyGazeFromPage` (tracker.js 89-105);
`rectWidth`/`rectHeight` are the sizes returned by `overlay.getBoundingClientRect()`. -/
def rawCenter (PROC_W PROC_H normalizedX normalizedY rectWidth rectHeight : ℚ) : Point :=
  let xRel := normalizedX * rectWidth
  let yRel := normalizedY * rectHeight
  let scaleX := PROC_W / rectWidth
  let scaleY := PROC_H / rectHeight
  let x := xRel * scaleX
  let y := yRel * scaleY
  { x := max 0 (min PROC_W x), y := max 0 (min PROC_H y) }

/-- The EMA update of `applyGazeFromPage` (tracker.js 107-115). -/
def smooth (smoothed : Option Point) (rawCenter : Point) : Point :=
  match smoothed with
  | none => rawCenter
  | some p =>
    { x := EMA_ALPHA * rawCenter.x + (1 - EMA_ALPHA) * p.x,
      y := EMA_ALPHA * rawCenter.y + (1 - EMA_ALPHA) * p.y }

/-- What one processed sample hands to `drawMarker` and `updatePanel`. -/
structure Readout where
  center : Point
  dx : ℚ
  dy : ℚ
deriving DecidableEq, Repr

/-- The function `applyGazeFromPage(normalizedX, normalizedY)` (tracker.js 86-125).  Returns the new
module state and, when the sample is processed, the values handed to the presentation
calls. -/
def applyGazeFromPage (s : State) (normalizedX normalizedY rectWidth rectHeight now : ℚ) :
    State × Option Readout :=
  if s.overlayWidth = 0 ∨ s.overlayHeight = 0 then (s, none)
  else
    let raw := rawCenter s.PROC_W s.PROC_H normalizedX normalizedY rectWidth rectHeight
    let sm := smooth s.smoothed raw
    let s1 : State := { s with smoothed := some sm }
    let centerX := s1.PROC_W / 2
    let centerY := s1.PROC_H / 2
    let dx := sm.x - centerX
    let dy := sm.y - centerY
    (updatePanel s1 s1.smoothed dx dy (some 0) now, some { center := sm, dx := dx, dy := dy })

/-- The events the popup reacts to: a relayed gaze sample (with the bounding rectangle and
clock value read while handling it) and a `load`/`resize` of the window. -/
inductive Event where
  | gaze (normalizedX normalizedY rectWidth rectHeight now : ℚ)
  | resize (clientWidth clientHeight : ℕ)
deriving DecidableEq, Repr

/-- Handling one event. -/
def step (s : State) : Event → State
  | .gaze nx ny rw rh now => (applyGazeFromPage s nx ny rw rh now).1
  | .resize cw ch => sizeOverlay s cw ch

/-- Handling a sequence of events in arrival order. -/
def run (s : State) (es : List Event) : State := es.foldl step s

theorem updatePanel_some_smoothed (s : State) (c : Point) (dx dy : ℚ) (q : Option ℚ) (now : ℚ) :
    (updatePanel s (some c) dx dy q now).smoothed = s.smoothed := by
  unfold updatePanel; dsimp only; split_ifs <;> rfl

theorem updatePanel_some_geometry (s : State) (c : Point) (dx dy : ℚ) (q : Option ℚ) (now : ℚ) :
    (updatePanel s (some c) dx dy q now).PROC_W = s.PROC_W ∧
    (updatePanel s (some c) dx dy q now).PROC_H = s.PROC_H ∧
    (updatePanel s (some c) dx dy q now).overlayWidth = s.overlayWidth ∧
    (updatePanel s (some c) dx dy q now).overlayHeight = s.overlayHeight := by
  unfold updatePanel; dsimp only; split_ifs <;> exact ⟨rfl, rfl, rfl, rfl⟩

theorem applyGaze_dropped (s : State) (nx ny rw rh now : ℚ)
    (h : s.overlayWidth = 0 ∨ s.overlayHeight = 0) :
    applyGazeFromPage s nx ny rw rh now = (s, none) := by
  unfold applyGazeFromPage; rw [if_pos h]

theorem applyGaze_processed (s : State) (nx ny rw rh now : ℚ)
    (hw : s.overlayWidth ≠ 0) (hh : s.overlayHeight ≠ 0) :
    applyGazeFromPage s nx ny rw rh now =
      (updatePanel { s with smoothed := some (smooth s.smoothed
            (rawCenter s.PROC_W s.PROC_H nx ny rw rh)) }
          (some (smooth s.smoothed (rawCenter s.PROC_W s.PROC_H nx ny rw rh)))
          ((smooth s.smoothed (rawCenter s.PROC_W s.PROC_H nx ny rw rh)).x - s.PROC_W / 2)
          ((smooth s.smoothed (rawCenter s.PROC_W s.PROC_H nx ny rw rh)).y - s.PROC_H / 2)
          (some 0) now,
        some { center := smooth s.smoothed (rawCenter s.PROC_W s.PROC_H nx ny rw rh),
               dx := (smooth s.smoothed (rawCenter s.PROC_W s.PROC_H nx ny rw rh)).x
                      - s.PROC_W / 2,
               dy := (smooth s.smoothed (rawCenter s.PROC_W s.PROC_H nx ny rw rh)).y
                      - s.PROC_H / 2 }) := by
  unfold applyGazeFromPage
  rw [if_neg (by rintro (h | h) <;> contradiction)]

theorem applyGaze_smoothed (s : State) (nx ny rw rh now : ℚ)
    (hw : s.overlayWidth ≠ 0) (hh : s.overlayHeight ≠ 0) :
    (applyGazeFromPage s nx ny rw rh now).1.smoothed =
      some (smooth s.smoothed (rawCenter s.PROC_W s.PROC_H nx ny rw rh)) := by
  rw [applyGaze_processed s nx ny rw rh now hw hh]
  exact updatePanel_some_smoothed _ _ _ _ _ _

theorem applyGaze_geometry (s : State) (nx ny rw rh now : ℚ) :
    (applyGazeFromPage s nx ny rw rh now).1.PROC_W = s.PROC_W ∧
    (applyGazeFromPage s nx ny rw rh now).1.PROC_H = s.PROC_H ∧
    (applyGazeFromPage s nx ny rw rh now).1.overlayWidth = s.overlayWidth ∧
    (applyGazeFromPage s nx ny rw rh now).1.overlayHeight = s.overlayHeight := by
  by_cases h : s.overlayWidth = 0 ∨ s.overlayHeight = 0
  · rw [applyGaze_dropped s nx ny rw rh now h]; exact ⟨rfl, rfl, rfl, rfl⟩
  · have hw : s.overlayWidth ≠ 0 := fun h0 => h (Or.inl h0)
    have hh : s.overlayHeight ≠ 0 := fun h0 => h (Or.inr h0)
    rw [applyGaze_processed s nx ny rw rh now hw hh]
    exact updatePanel_some_geometry _ _ _ _ _ _

theorem rawCenter_scaled (PW PH nx ny rw rh : ℚ) (hrw : rw ≠ 0) (hrh : rh ≠ 0) :
    rawCenter PW PH nx ny rw rh =
      { x := max 0 (min PW (nx * PW)), y := max 0 (min PH (ny * PH)) } := by
  unfold rawCenter
  dsimp only
  have hx : nx * rw * (PW / rw) = nx * PW := by field_simp; ring
  have hy : ny * rh * (PH / rh) = ny * PH := by field_simp; ring
  rw [hx, hy]

/-! ## Claims -/

/-- C1: Exponential Smoother. A processed sample arriving in the uninitialised state sets
`smoothed` to exactly the clamped remapped point; a processed sample arriving in an
initialised state sets it to `0.2 * rawCenter + 0.8 * smoothed`, componentwise. On the
initial 480 x 270 geometry, samples remapping to (100, 50) and then (200, 50) give
(100, 50) and then (120, 50). -/
theorem C1_smoother :
    (∀ (s : State) (nx ny rw rh now : ℚ), s.overlayWidth ≠ 0 → s.overlayHeight ≠ 0 →
      s.smoothed = none →
      (applyGazeFromPage s nx ny rw rh now).1.smoothed =
        some (rawCenter s.PROC_W s.PROC_H nx ny rw rh)) ∧
    (∀ (s : State) (p : Point) (nx ny rw rh now : ℚ),
      s.overlayWidth ≠ 0 → s.overlayHeight ≠ 0 → s.smoothed = some p →
      (applyGazeFromPage s nx ny rw rh now).1.smoothed =
        some { x := (2 / 10) * (rawCenter s.PROC_W s.PROC_H nx ny rw rh).x + (8 / 10) * p.x,
               y := (2 / 10) * (rawCenter s.PROC_W s.PROC_H nx ny rw rh).y + (8 / 10) * p.y }) ∧
    (∀ (ow oh : ℕ) (t0 nx1 ny1 rw1 rh1 now1 nx2 ny2 rw2 rh2 now2 : ℚ),
      ow ≠ 0 → oh ≠ 0 →
      rawCenter 480 270 nx1 ny1 rw1 rh1 = { x := 100, y := 50 } →
      rawCenter 480 270 nx2 ny2 rw2 rh2 = { x := 200, y := 50 } →
      (run (init ow oh t0) [.gaze nx1 ny1 rw1 rh1 now1]).smoothed = some { x := 100, y := 50 } ∧
      (run (init ow oh t0) [.gaze nx1 ny1 rw1 rh1 now1, .gaze nx2 ny2 rw2 rh2 now2]).smoothed =
        some { x := 120, y := 50 }) := by
  refine ⟨?_, ?_, ?_⟩
  · intro s nx ny rw rh now hw hh hs
    rw [applyGaze_smoothed s nx ny rw rh now hw hh, hs]
    rfl
  · intro s p nx ny rw rh now hw hh hs
    rw [applyGaze_smoothed s nx ny rw rh now hw hh, hs]
    simp only [smooth, EMA_ALPHA]
    norm_num
  · intro ow oh t0 nx1 ny1 rw1 rh1 now1 nx2 ny2 rw2 rh2 now2 how hoh h1 h2
    have e1 : (applyGazeFromPage (init ow oh t0) nx1 ny1 rw1 rh1 now1).1.smoothed =
        some { x := 100, y := 50 } := by
      rw [applyGaze_smoothed _ nx1 ny1 rw1 rh1 now1 how hoh]
      simp only [init, h1, smooth]
    refine ⟨e1, ?_⟩
    have g := applyGaze_geometry (init ow oh t0) nx1 ny1 rw1 rh1 now1
    simp only [run, List.foldl, step]
    rw [applyGaze_smoothed _ nx2 ny2 rw2 rh2 now2 (by rw [g.2.2.1]; exact how)
      (by rw [g.2.2.2]; exact hoh), e1, g.1, g.2.1]
    simp only [init, h2, smooth, EMA_ALPHA]
    norm_num

/-- Witness for C1 at the spec scenario: display and processing geometry 480 x 270, samples
(100/480, 50/270) and (200/480, 50/270). -/
theorem C1_smoother_witness :
    (run (init 480 270 0) [.gaze (100 / 480) (50 / 270) 480 270 10]).smoothed =
        some { x := 100, y := 50 } ∧
    (run (init 480 270 0) [.gaze (100 / 480) (50 / 270) 480 270 10,
        .gaze (200 / 480) (50 / 270) 480 270 20]).smoothed = some { x := 120, y := 50 } :=
  C1_smoother.2.2 480 270 0 (100 / 480) (50 / 270) 480 270 10 (200 / 480) (50 / 270) 480 270 20
    (by decide) (by decide)
    (by rw [rawCenter_scaled _ _ _ _ _ _ (by norm_num) (by norm_num)]; norm_num)
    (by rw [rawCenter_scaled _ _ _ _ _ _ (by norm_num) (by norm_num)]; norm_num)

/-- C8: degenerate target geometry. When `overlay.width` or `overlay.height` is `0`,
`applyGazeFromPage` returns at once: nothing is handed to the presentation calls and the
whole module state (smoothed point, frame count, window start, published rate, panel) is
unchanged. -/
theorem C8_degenerate_geometry_drops (s : State) (nx ny rw rh now : ℚ)
    (h : s.overlayWidth = 0 ∨ s.overlayHeight = 0) :
    applyGazeFromPage s nx ny rw rh now = (s, none) ∧
    (applyGazeFromPage s nx ny rw rh now).1.smoothed = s.smoothed ∧
    (applyGazeFromPage s nx ny rw rh now).1.frames = s.frames ∧
    (applyGazeFromPage s nx ny rw rh now).1.lastTime = s.lastTime ∧
    (applyGazeFromPage s nx ny rw rh now).1.fps = s.fps ∧
    (applyGazeFromPage s nx ny rw rh now).1.fpsEl = s.fpsEl := by
  rw [applyGaze_dropped s nx ny rw rh now h]
  exact ⟨rfl, rfl, rfl, rfl, rfl, rfl⟩

/-- Witness for C8: a canvas of width 0 and height 270, 600 ms after loading. -/
theorem C8_degenerate_geometry_drops_witness :
    applyGazeFromPage (init 0 270 0) (1 / 2) (1 / 2) 480 270 600 = (init 0 270 0, none) :=
  (C8_degenerate_geometry_drops (init 0 270 0) (1 / 2) (1 / 2) 480 270 600
    (Or.inl rfl)).1

/-- C10: Deviation Calculator. For every processed sample the deviation handed to the
presentation calls is `dx = smoothed.x - PROC_W / 2`, `dy = smoothed.y - PROC_H / 2`, for
the smoothed point just stored and the processing size of the state the sample is handled
in; the panel shows these values rounded. A smoothed point at the centre gives
`dx = dy = 0`, one at `(PROC_W, 0)` gives `dx = PROC_W / 2`, `dy = -PROC_H / 2`. -/
theorem C10_deviation (s : State) (nx ny rw rh now : ℚ)
    (hw : s.overlayWidth ≠ 0) (hh : s.overlayHeight ≠ 0) :
    ∃ r : Readout,
      (applyGazeFromPage s nx ny rw rh now).2 = some r ∧
      (applyGazeFromPage s nx ny rw rh now).1.smoothed = some r.center ∧
      r.dx = r.center.x - s.PROC_W / 2 ∧
      r.dy = r.center.y - s.PROC_H / 2 ∧
      (applyGazeFromPage s nx ny rw rh now).1.dxEl = some (decide (0 ≤ r.dx), Math.round r.dx) ∧
      (applyGazeFromPage s nx ny rw rh now).1.dyEl = some (decide (0 ≤ r.dy), Math.round r.dy) ∧
      (r.center = { x := s.PROC_W / 2, y := s.PROC_H / 2 } → r.dx = 0 ∧ r.dy = 0) ∧
      (r.center = { x := s.PROC_W, y := 0 } → r.dx = s.PROC_W / 2 ∧ r.dy = -(s.PROC_H / 2)) := by
  refine ⟨_, by rw [applyGaze_processed s nx ny rw rh now hw hh],
    applyGaze_smoothed s nx ny rw rh now hw hh, rfl, rfl, ?_, ?_, ?_, ?_⟩
  · rw [applyGaze_processed s nx ny rw rh now hw hh]
    unfold updatePanel; dsimp only; split_ifs <;> rfl
  · rw [applyGaze_processed s nx ny rw rh now hw hh]
    unfold updatePanel; dsimp only; split_ifs <;> rfl
  · intro hc
    dsimp only at hc ⊢
    rw [hc]
    exact ⟨sub_self _, sub_self _⟩
  · intro hc
    dsimp only at hc ⊢
    rw [hc]
    constructor
    · dsimp only; ring
    · dsimp only; ring

/-- Witness for C10: first sample `(1, 0)` on the initial 480 x 270 geometry; the smoothed
point is `(480, 0)` and the deviation `(240, -135)`. -/
theorem C10_deviation_witness :
    ∃ r : Readout,
      (applyGazeFromPage (init 480 270 0) 1 0 480 270 10).2 = some r ∧
      r.center = { x := 480, y := 0 } ∧ r.dx = 240 ∧ r.dy = -135 := by
  obtain ⟨r, h2, h1, hdx, hdy, -, -, -, hcorner⟩ :=
    C10_deviation (init 480 270 0) 1 0 480 270 10 (by decide) (by decide)
  have hs := applyGaze_smoothed (init 480 270 0) 1 0 480 270 10 (by decide) (by decide)
  rw [h1] at hs
  have hc : r.center = { x := 480, y := 0 } := by
    have := Option.some.inj hs
    rw [this, rawCenter_scaled _ _ _ _ _ _ (by norm_num) (by norm_num)]
    simp only [init, smooth]
    norm_num
  refine ⟨r, h2, hc, ?_, ?_⟩
  · rw [hdx, hc]; simp only [init]; norm_num
  · rw [hdy, hc]; simp only [init]; norm_num

/-- C5: Rate Meter step. `updatePanel`, called with a non-null centre at time `now`, counts
the sample; if `now - lastTime` exceeds 500 the published rate becomes
`round (count * 1000 / (now - lastTime))` for the count including this sample, the count is
reset to 0 and the window start to `now`; otherwise the published rate and the window start
are kept and the count is one more. Hence a rate is only published for a window longer than
500 ms. Every sample processed by `applyGazeFromPage` takes exactly this step. -/
theorem C5_rate_meter_step (s : State) (c : Point) (dx dy : ℚ) (q : Option ℚ) (now : ℚ) :
    (500 < now - s.lastTime →
      (updatePanel s (some c) dx dy q now).fps =
        Math.round ((((s.frames + 1 : ℕ) : ℚ) * 1000) / (now - s.lastTime)) ∧
      (updatePanel s (some c) dx dy q now).fpsEl =
        some (Math.round ((((s.frames + 1 : ℕ) : ℚ) * 1000) / (now - s.lastTime))) ∧
      (updatePanel s (some c) dx dy q now).frames = 0 ∧
      (updatePanel s (some c) dx dy q now).lastTime = now) ∧
    (¬ 500 < now - s.lastTime →
      (updatePanel s (some c) dx dy q now).fps = s.fps ∧
      (updatePanel s (some c) dx dy q now).fpsEl = s.fpsEl ∧
      (updatePanel s (some c) dx dy q now).frames = s.frames + 1 ∧
      (updatePanel s (some c) dx dy q now).lastTime = s.lastTime) ∧
    (((updatePanel s (some c) dx dy q now).fps ≠ s.fps ∨
        (updatePanel s (some c) dx dy q now).fpsEl ≠ s.fpsEl ∨
        (updatePanel s (some c) dx dy q now).lastTime ≠ s.lastTime) →
      500 ≤ now - s.lastTime) ∧
    (∀ nx ny rw rh : ℚ, s.overlayWidth ≠ 0 → s.overlayHeight ≠ 0 →
      (applyGazeFromPage s nx ny rw rh now).1.fps = (updatePanel s (some c) dx dy q now).fps ∧
      (applyGazeFromPage s nx ny rw rh now).1.fpsEl =
        (updatePanel s (some c) dx dy q now).fpsEl ∧
      (applyGazeFromPage s nx ny rw rh now).1.frames =
        (updatePanel s (some c) dx dy q now).frames ∧
      (applyGazeFromPage s nx ny rw rh now).1.lastTime =
        (updatePanel s (some c) dx dy q now).lastTime) := by
  refine ⟨?_, ?_, ?_, ?_⟩
  · intro h
    unfold updatePanel; dsimp only
    rw [if_pos h]
    exact ⟨rfl, rfl, rfl, rfl⟩
  · intro h
    unfold updatePanel; dsimp only
    rw [if_neg h]
    exact ⟨rfl, rfl, rfl, rfl⟩
  · intro h
    by_contra hlt
    have hn : ¬ 500 < now - s.lastTime := fun h5 => hlt h5.le
    unfold updatePanel at h; dsimp only at h
    rw [if_neg hn] at h
    simp at h
  · intro nx ny rw rh hw hh
    rw [applyGaze_processed s nx ny rw rh now hw hh]
    unfold updatePanel; dsimp only
    split_ifs <;> exact ⟨rfl, rfl, rfl, rfl⟩

/-- Witness for C5: 31 samples already counted in a window started at 0, the next sample at
520 ms: the rate published is `round (32000 / 520) = 62`. -/
theorem C5_rate_meter_step_witness :
    (updatePanel { init 480 270 0 with frames := 31 } (some { x := 1, y := 2 }) 0 0 (some 0)
        520).fps = 62 ∧
    (updatePanel { init 480 270 0 with frames := 31 } (some { x := 1, y := 2 }) 0 0 (some 0)
        520).frames = 0 ∧
    (updatePanel { init 480 270 0 with frames := 31 } (some { x := 1, y := 2 }) 0 0 (some 0)
        520).lastTime = 520 := by
  have h := (C5_rate_meter_step { init 480 270 0 with frames := 31 } { x := 1, y := 2 } 0 0
    (some 0) 520).1 (by simp only [init]; norm_num)
  refine ⟨?_, h.2.2.1, h.2.2.2⟩
  rw [h.1]
  simp only [init, Math.round]
  rw [Int.floor_eq_iff]
  constructor <;> norm_num

/-- C9, counterexample: with `window.innerWidth = 0` (and `innerHeight = 600`) the sample
`(10, 20)` is not dropped: a gaze-update message is sent, normalized by the fallback
width 1. -/
theorem C9_zero_width_not_dropped :
    (gazeListener { gazeDotLeft := none, gazeDotTop := none }
        (some { x := 10, y := 20 }) 0 600 5).2 =
      some { type := "gaze-update", normalizedX := 10, normalizedY := 1 / 30, timestamp := 5 } ∧
    (gazeListener { gazeDotLeft := none, gazeDotTop := none }
        (some { x := 10, y := 20 }) 0 600 5).2 ≠ none := by
  have e : (gazeListener { gazeDotLeft := none, gazeDotTop := none }
        (some { x := 10, y := 20 }) 0 600 5).2 =
      some { type := "gaze-update", normalizedX := 10, normalizedY := 1 / 30,
             timestamp := 5 } := by
    simp only [gazeListener, orDefault]
    norm_num
  exact ⟨e, by rw [e]; exact Option.some_ne_none _⟩

/-- C9, amended: for every non-null prediction `(x, y)` a gaze-update message is sent, with
no clamping; it carries `x / innerWidth` and `y / innerHeight` when these dimensions are
positive, and a dimension equal to `0` is replaced by the divisor `1` (the message then
carries `x`, respectively `y`, itself). No message is sent only for a null prediction. -/
theorem C9_normalizer (pg : Page) (x y now : ℚ) (innerWidth innerHeight : ℕ) :
    (∃ m : GazeMessage,
      (gazeListener pg (some { x := x, y := y }) innerWidth innerHeight now).2 = some m ∧
      m.type = "gaze-update" ∧ m.timestamp = now ∧
      (0 < innerWidth → m.normalizedX = x / (innerWidth : ℚ)) ∧
      (0 < innerHeight → m.normalizedY = y / (innerHeight : ℚ)) ∧
      (innerWidth = 0 → m.normalizedX = x) ∧
      (innerHeight = 0 → m.normalizedY = y)) ∧
    gazeListener pg none innerWidth innerHeight now = (pg, none) := by
  refine ⟨⟨_, rfl, rfl, rfl, ?_, ?_, ?_, ?_⟩, rfl⟩
  · intro h
    show x / ((orDefault innerWidth 1 : ℕ) : ℚ) = x / (innerWidth : ℚ)
    unfold orDefault; rw [if_neg h.ne']
  · intro h
    show y / ((orDefault innerHeight 1 : ℕ) : ℚ) = y / (innerHeight : ℚ)
    unfold orDefault; rw [if_neg h.ne']
  · intro h
    show x / ((orDefault innerWidth 1 : ℕ) : ℚ) = x
    unfold orDefault; rw [if_pos h]; simp
  · intro h
    show y / ((orDefault innerHeight 1 : ℕ) : ℚ) = y
    unfold orDefault; rw [if_pos h]; simp

/-- Witness for C9: the out-of-range sample `(-10, 300)` on a 1920 x 0 page is sent as
`(-10/1920, 300)`. -/
theorem C9_normalizer_witness :
    ∃ m : GazeMessage,
      (gazeListener { gazeDotLeft := none, gazeDotTop := none }
        (some { x := -10, y := 300 }) 1920 0 7).2 = some m ∧
      m.normalizedX = -10 / ((1920 : ℕ) : ℚ) ∧ m.normalizedY = 300 := by
  obtain ⟨⟨m, h1, -, -, hx, -, -, hy⟩, -⟩ :=
    C9_normalizer { gazeDotLeft := none, gazeDotTop := none } (-10) 300 7 1920 0
  exact ⟨m, h1, hx (by decide), hy rfl⟩

/-! ### Rate Meter over a uniform stream -/

end GazeTracker
